import Mathlib

/-!
Shallow embedding of the core logic of `src/dashboard_waze.py`:
the location-string parser `_extract_lat_lon` / `_parse_location_column`
and the dataset builder `load_data`, together with the constant tables
`GRAVITE`, `FILES` and `VILLES_SERVICE_COMMUN`.

Python floats are embedded as `Rat`: every number the two regexes can
match is an exact decimal literal, and the only numeric operations the
code performs on them are order comparisons against the exactly
representable bounds 40 and 60, so rational arithmetic is faithful.

Strings are processed as `List Char` (the `data` field of `String`).
-/

namespace Waze

/-! ## Character classes

`isPySpace` embeds the character class `\s` of a Python 3 `str` regex:
the six ASCII whitespace characters plus the Unicode whitespace
characters recognised by `str.isspace`. -/

def isPySpace (c : Char) : Bool :=
  c = ' ' || c = '\t' || c = '\n' || (c.toNat ≥ 0x0B && c.toNat ≤ 0x0D) ||
  (c.toNat ≥ 0x1C && c.toNat ≤ 0x1F) || c.toNat = 0x85 || c.toNat = 0xA0 ||
  c.toNat = 0x1680 || (c.toNat ≥ 0x2000 && c.toNat ≤ 0x200A) ||
  c.toNat = 0x2028 || c.toNat = 0x2029 || c.toNat = 0x202F ||
  c.toNat = 0x205F || c.toNat = 0x3000

/-- Separator class `[\s,]` of the WKT regex on line 92. -/
def isSep1 (c : Char) : Bool := isPySpace c || c = ','

/-- Separator class `[\s,;]` of the fallback regex on line 101. -/
def isSep2 (c : Char) : Bool := isPySpace c || c = ',' || c = ';'

/-! ## Decimal-number tokens

Both regexes use the group `([-+]?\d*\.?\d+)` for a signed decimal
number.  `matchNum?` embeds a match of this group anchored at the head
of the input, returning the matched token and the rest of the input.

The regex engine is a backtracking matcher, and the embedding below is
the plain maximal-munch parse.  The two are equivalent in every context
in which the group occurs in the two patterns: each shorter
(backtracked) alternative of the group ends immediately before a digit
or before a `.`, and in both patterns the component that follows the
group (`[\s,]+`, `[\s,;]+`, `\s*\)`, or end of pattern) can never begin
with a digit or a `.`, so no backtracked alternative can extend to a
full match unless the maximal-munch one does. -/

def numBody? (body : List Char) : Option (List Char × List Char) :=
  let d1 := body.takeWhile Char.isDigit
  let r1 := body.dropWhile Char.isDigit
  match r1 with
  | '.' :: r2 =>
    let d2 := r2.takeWhile Char.isDigit
    if d2.isEmpty then
      if d1.isEmpty then none else some (d1, r1)
    else
      some (d1 ++ '.' :: d2, r2.dropWhile Char.isDigit)
  | _ => if d1.isEmpty then none else some (d1, r1)

def matchNum? (l : List Char) : Option (List Char × List Char) :=
  match l with
  | '-' :: r => (numBody? r).map (fun p => ('-' :: p.1, p.2))
  | '+' :: r => (numBody? r).map (fun p => ('+' :: p.1, p.2))
  | _ => numBody? l

/-! ## Python float conversion

`pyFloat?` embeds Python `float(s)` restricted to the shapes the number
group can produce: an optional sign, an optional integer part, an
optional `.` and fraction digits.  On every other string it returns
`none`, embedding the `ValueError` branch of the `try`/`except` on
lines 94–99. -/

def digitVal (c : Char) : Nat := c.toNat - 48

def natOfDigits (l : List Char) : Nat := l.foldl (fun a c => 10 * a + digitVal c) 0

/-- Exact value of the decimal numeral `ip.fp` (integer part, fraction
part), as a rational: `(ip ++ fp) / 10 ^ length fp`. -/
def decValue (ip fp : List Char) : Rat :=
  mkRat (natOfDigits (ip ++ fp)) (10 ^ fp.length)

def pyFloatMag? (l : List Char) : Option Rat :=
  let ip := l.takeWhile Char.isDigit
  let rest := l.dropWhile Char.isDigit
  match rest with
  | [] => if ip.isEmpty then none else some (decValue ip [])
  | '.' :: fp =>
    if fp.all Char.isDigit && !(ip.isEmpty && fp.isEmpty) then
      some (decValue ip fp)
    else none
  | _ => none

def pyFloat? (s : List Char) : Option Rat :=
  match s with
  | '-' :: r => (pyFloatMag? r).map (fun m => -m)
  | '+' :: r => pyFloatMag? r
  | _ => pyFloatMag? s

/-! ## The two regex patterns

`matchPointAt?` embeds a match of the WKT pattern
`POINT\s*\(\s*([-+]?\d*\.?\d+)[\s,]+([-+]?\d*\.?\d+)\s*\)` (with
`re.IGNORECASE`) anchored at the head of the input; it returns the two
captured groups.  `matchPairAt?` does the same for the fallback pattern
`([-+]?\d*\.?\d+)[\s,;]+([-+]?\d*\.?\d+)`.  `searchWith` embeds
`re.search`: the match is attempted at every start position from left
to right. -/

def stripPoint? (l : List Char) : Option (List Char) :=
  match l with
  | c1 :: c2 :: c3 :: c4 :: c5 :: r =>
    if c1.toLower = 'p' && c2.toLower = 'o' && c3.toLower = 'i' &&
       c4.toLower = 'n' && c5.toLower = 't' then some r else none
  | _ => none

def matchPointAt? (l : List Char) : Option (List Char × List Char) :=
  match stripPoint? l with
  | none => none
  | some r0 =>
    match r0.dropWhile isPySpace with
    | '(' :: r1 =>
      match matchNum? (r1.dropWhile isPySpace) with
      | none => none
      | some (t1, r2) =>
        if (r2.takeWhile isSep1).isEmpty then none
        else
          match matchNum? (r2.dropWhile isSep1) with
          | none => none
          | some (t2, r3) =>
            match r3.dropWhile isPySpace with
            | ')' :: _ => some (t1, t2)
            | _ => none
    | _ => none

def matchPairAt? (l : List Char) : Option (List Char × List Char) :=
  match matchNum? l with
  | none => none
  | some (t1, r1) =>
    if (r1.takeWhile isSep2).isEmpty then none
    else
      match matchNum? (r1.dropWhile isSep2) with
      | none => none
      | some (t2, _) => some (t1, t2)

def searchWith (m : List Char → Option (List Char × List Char)) :
    List Char → Option (List Char × List Char)
  | [] => m []
  | l@(_ :: t) =>
    match m l with
    | some g => some g
    | none => searchWith m t

/-- Leftmost match of the WKT `POINT` pattern (line 92 of the source). -/
def pointSearch (l : List Char) : Option (List Char × List Char) :=
  searchWith matchPointAt? l

/-- Leftmost match of the loose-pair fallback pattern (line 101). -/
def pairSearch (l : List Char) : Option (List Char × List Char) :=
  searchWith matchPairAt? l

/-! ## The parser `_extract_lat_lon`

A missing (`NaN`) cell is embedded as `none`; `(none, none)` embeds the
Python return value `(None, None)`.  In the fallback branch the source
calls `float` without a `try`/`except`; there the conversion cannot
fail (the group always parses), and the embedding uses `getD 0`, which
is never exercised at `none` — see `pyFloat_matchNum_isSome`. -/

def _extract_lat_lon (val : Option String) : Option Rat × Option Rat :=
  match val with
  | none => (none, none)
  | some s =>
    match pointSearch s.data with
    | some (g1, g2) =>
      match pyFloat? g1, pyFloat? g2 with
      | some lon, some lat => (some lat, some lon)
      | _, _ => (none, none)
    | none =>
      match pairSearch s.data with
      | some (g1, g2) =>
        let a := (pyFloat? g1).getD 0
        let b := (pyFloat? g2).getD 0
        if 40 ≤ a ∧ a ≤ 60 then (some a, some b)
        else if 40 ≤ b ∧ b ≤ 60 then (some b, some a)
        else (some a, some b)
      | none => (none, none)

/-! ## Constant tables

The scenario string of the stand-still-traffic source and the
corresponding `GRAVITE` key differ in one character: the `FILES`
value in the source (line 69) spells the apostrophe as U+2019 (right single
quotation mark) while the `GRAVITE` key (line 37) uses the ASCII
apostrophe U+0027.  Both characters are spelled out via `Char.ofNat` so
that the distinction is explicit. -/

def asciiApos : Char := Char.ofNat 0x27

def rightQuote : Char := Char.ofNat 0x2019

/-- Scenario label stamped on the stand-still-traffic source (U+2019). -/
def bouchonArretScenario : String :=
  "Bouchon – trafic à l" ++ String.mk [rightQuote] ++ "arrêt"

/-- Key of the severity table for the stand-still scenario (U+0027). -/
def bouchonArretKey : String :=
  "Bouchon – trafic à l" ++ String.mk [asciiApos] ++ "arrêt"

/-- Severity table `GRAVITE` (lines 34–42), in declaration order. -/
def GRAVITE : List (String × Nat) :=
  [("Accident grave", 5),
   ("Inondation", 4),
   (bouchonArretKey, 3),
   ("Accident léger", 3),
   ("Bouchon – trafic dense", 2),
   ("Panne de feu tricolore", 2),
   ("Nid-de-poule", 1)]

/-- City allow-list `VILLES_SERVICE_COMMUN` (lines 55–62). -/
def VILLES_SERVICE_COMMUN : List String :=
  ["Palaiseau", "Orsay", "Villejust", "Ballainvilliers",
   "Verrières-le-Buisson", "La Ville-du-Bois", "Les Ulis",
   "Saclay", "Wissous", "Villebon-sur-Yvette",
   "Saulx-les-Chartreux", "Villiers-le-Bâcle", "Linas",
   "Vauhallan", "Saint-Aubin", "Longjumeau",
   "Marcoussis", "Nozay", "Epinay-sur-Orge", "Igny"]

/-- Source-to-scenario table `FILES` (lines 67–75), in insertion order
(Python dicts iterate in insertion order). -/
def FILES : List (String × String) :=
  [("Waze heavy traffic.csv", "Bouchon – trafic dense"),
   ("Waze stand still traffic.csv", bouchonArretScenario),
   ("Waze accident minor.csv", "Accident léger"),
   ("Waze accident major.csv", "Accident grave"),
   ("Waze pot_hole.csv", "Nid-de-poule"),
   ("HAZARD_ON_ROAD_TRAFFIC_LIGHT_FAULT.csv", "Panne de feu tricolore"),
   ("HAZARD_WEATHER_FLOOD.csv", "Inondation")]

/-! ## Raw tables and normalized rows

A raw CSV is embedded as the set of columns it has plus its rows; a
cell is `Option String`, with `none` for a missing (`NaN`) cell.  The
`Date` column is omitted from the row model: its normalization
(`pd.to_datetime(..., errors="coerce", dayfirst=True)`, lines 157–160)
coerces failures to null and is referenced by no claim.  A normalized
row carries the fields the pipeline constructs; `gravite` is attached
by the final step of `load_data` (line 222). -/

structure RawRow where
  city : Option String
  street : Option String
  location : Option String
deriving DecidableEq

structure RawTable where
  hasCity : Bool
  hasStreet : Bool
  hasLocation : Bool
  rows : List RawRow
deriving DecidableEq

structure Row where
  City : String
  Street : Option String
  latitude : Option Rat
  longitude : Option Rat
  scenario : String
deriving DecidableEq

structure FinalRow extends Row where
  gravite : Nat
deriving DecidableEq

/-- Per-source normalization (lines 147–166): fill the `City` column
(default `"Inconnue"`, also for null cells), create `Street` if absent,
derive `latitude`/`longitude` from `Location` via `_extract_lat_lon`
(both stay null for every row when the column is absent), and stamp the
scenario label of the source on every row. -/
def normSource (scenario : String) (t : RawTable) : List Row :=
  t.rows.map fun r =>
    { City := if t.hasCity then r.city.getD "Inconnue" else "Inconnue"
      Street := if t.hasStreet then r.street else some ""
      latitude := if t.hasLocation then (_extract_lat_lon r.location).1 else none
      longitude := if t.hasLocation then (_extract_lat_lon r.location).2 else none
      scenario := scenario }

/-- Severity attachment (line 222):
`waze_filtered["scenario"].map(GRAVITE).fillna(1).astype(int)`. -/
def addGravite (r : Row) : FinalRow :=
  { r with gravite := (GRAVITE.lookup r.scenario).getD 1 }

/-- Concatenation, city filter and severity attachment (lines 211–222).
The repeated `City` fillna after concatenation (lines 215–218) is a
no-op in the model: per-source normalization already produced a plain
string in every row. -/
def finishDataset (villes : List String) (dfs : List (List Row)) : List FinalRow :=
  ((dfs.flatten).filter (fun r => villes.contains r.City)).map addGravite

/-- The only fatal failure of the builder: `FileNotFoundError`, raised
on lines 203 and 205 when no configured source exists and the upload
fallback supplies nothing. -/
inductive BuildError where
  | DataUnavailable
deriving DecidableEq

/-- The dataset builder (`load_data`, lines 131–223), parameterized by
the configuration the Python code keeps in module globals.  `fs` embeds
the directory: `fs name = none` iff `path.exists()` is false for that
source.  `uploaded` embeds the file-uploader fallback (lines 176–203);
each uploaded file is normalized the same way and its scenario is
`FILES.get(f.name, "Upload")`.  The returned pair is the list of
missing source names (surfaced via `st.warning`, line 171) and the
final filtered dataset. -/
def build_dataset (files : List (String × String)) (villes : List String)
    (fs : String → Option RawTable) (uploaded : List (String × RawTable)) :
    Except BuildError (List String × List FinalRow) :=
  let missing := (files.filter (fun p => (fs p.1).isNone)).map Prod.fst
  let dfs := files.filterMap (fun p => (fs p.1).map (fun t => normSource p.2 t))
  if dfs.isEmpty then
    if uploaded.isEmpty then .error .DataUnavailable
    else
      let dfs2 := uploaded.map (fun u => normSource ((files.lookup u.1).getD "Upload") u.2)
      if dfs2.isEmpty then .error .DataUnavailable
      else .ok (missing, finishDataset villes dfs2)
  else .ok (missing, finishDataset villes dfs)

/-- Definition of `load_data` itself: `build_dataset` applied to the constant
tables of the module. -/
def load_data (fs : String → Option RawTable) (uploaded : List (String × RawTable)) :
    Except BuildError (List String × List FinalRow) :=
  build_dataset FILES VILLES_SERVICE_COMMUN fs uploaded

/-! ## Concrete fixtures used by the claim witnesses -/

/-- A raw table with a single Palaiseau row and only a `City` column. -/
def witnessTable : RawTable :=
  { hasCity := true, hasStreet := false, hasLocation := false,
    rows := [{ city := some "Palaiseau", street := none, location := none }] }

/-- A directory in which only the pothole source exists. -/
def witnessFS : String → Option RawTable :=
  fun n => if n = "Waze pot_hole.csv" then some witnessTable else none

/-- The sources missing from `witnessFS`, in `FILES` order. -/
def witnessMissing : List String :=
  ["Waze heavy traffic.csv", "Waze stand still traffic.csv",
   "Waze accident minor.csv", "Waze accident major.csv",
   "HAZARD_ON_ROAD_TRAFFIC_LIGHT_FAULT.csv", "HAZARD_WEATHER_FLOOD.csv"]

/-- The single record `load_data witnessFS []` produces. -/
def witnessRow : FinalRow :=
  { City := "Palaiseau", Street := some "", latitude := none, longitude := none,
    scenario := "Nid-de-poule", gravite := 1 }

/-- Source `fileA.csv` of the end-to-end scenario. -/
def fileATable : RawTable :=
  { hasCity := true, hasStreet := false, hasLocation := true,
    rows := [{ city := some "Palaiseau", street := none,
               location := some "POINT(2.2 48.7)" }] }

/-- Source `fileB.csv` of the end-to-end scenario. -/
def fileBTable : RawTable :=
  { hasCity := true, hasStreet := false, hasLocation := true,
    rows := [{ city := some "Paris", street := none, location := some "" }] }

/-- The two-source directory of the end-to-end scenario. -/
def twoSourceFS : String → Option RawTable :=
  fun n =>
    if n = "fileA.csv" then some fileATable
    else if n = "fileB.csv" then some fileBTable else none

/-- A two-source directory in which only `fileA.csv` exists. -/
def oneMissingFS : String → Option RawTable :=
  fun n => if n = "fileA.csv" then some witnessTable else none

/-! ## Helper lemmas about the parser -/

theorem takeWhile_append_of_all {α} (p : α → Bool) :
    ∀ (l1 l2 : List α), (∀ c ∈ l1, p c = true) →
      (l1 ++ l2).takeWhile p = l1 ++ l2.takeWhile p
  | [], _, _ => rfl
  | a :: l1, l2, h => by
    have ha : p a = true := h a (List.mem_cons_self a l1)
    simp only [List.cons_append, List.takeWhile_cons, ha, if_true]
    rw [takeWhile_append_of_all p l1 l2 (fun c hc => h c (List.mem_cons_of_mem a hc))]

theorem dropWhile_append_of_all {α} (p : α → Bool) :
    ∀ (l1 l2 : List α), (∀ c ∈ l1, p c = true) →
      (l1 ++ l2).dropWhile p = l2.dropWhile p
  | [], _, _ => rfl
  | a :: l1, l2, h => by
    have ha : p a = true := h a (List.mem_cons_self a l1)
    simp only [List.cons_append, List.dropWhile_cons, ha, if_true]
    exact dropWhile_append_of_all p l1 l2 (fun c hc => h c (List.mem_cons_of_mem a hc))

theorem mem_takeWhile_digit {l d : List Char} (h : d = l.takeWhile Char.isDigit) :
    ∀ c ∈ d, c.isDigit = true := by
  subst h
  intro c hc
  exact List.mem_takeWhile_imp hc

/-- The magnitude part of `pyFloat?` succeeds on a nonempty block of digits. -/
theorem pyFloatMag_digits {d : List Char} (hd : ∀ c ∈ d, c.isDigit = true)
    (hne : d ≠ []) :
    (pyFloatMag? d).isSome = true := by
  unfold pyFloatMag?
  have ht : d.takeWhile Char.isDigit = d := by
    have := takeWhile_append_of_all Char.isDigit d [] hd
    simpa using this
  have hdrop : d.dropWhile Char.isDigit = [] := by
    have := dropWhile_append_of_all Char.isDigit d [] hd
    simpa using this
  rw [ht, hdrop]
  simp [List.isEmpty_iff, hne]

/-- The magnitude part of `pyFloat?` succeeds on `digits ++ "." ++ digits`
with a nonempty fractional part. -/
theorem pyFloatMag_digits_dot {d1 d2 : List Char}
    (h1 : ∀ c ∈ d1, c.isDigit = true) (h2 : ∀ c ∈ d2, c.isDigit = true)
    (hne : d2 ≠ []) :
    (pyFloatMag? (d1 ++ '.' :: d2)).isSome = true := by
  unfold pyFloatMag?
  have ht : (d1 ++ '.' :: d2).takeWhile Char.isDigit = d1 := by
    rw [takeWhile_append_of_all Char.isDigit d1 ('.' :: d2) h1]
    simp [List.takeWhile_cons]
  have hdrop : (d1 ++ '.' :: d2).dropWhile Char.isDigit = '.' :: d2 := by
    rw [dropWhile_append_of_all Char.isDigit d1 ('.' :: d2) h1]
    simp [List.dropWhile_cons]
  rw [ht, hdrop]
  have hall : d2.all Char.isDigit = true := List.all_eq_true.mpr h2
  simp [hall, List.isEmpty_iff, hne]

/-- A list starting with anything but a sign character is taken to the
default branch of the sign dispatch of `pyFloat?`. -/
theorem pyFloat_not_sign {c : Char} {r : List Char}
    (h1 : c ≠ '-') (h2 : c ≠ '+') :
    pyFloat? (c :: r) = pyFloatMag? (c :: r) := by
  rw [pyFloat?.eq_def]
  split
  · rename_i heq
    injection heq with hc _
    exact absurd hc h1
  · rename_i heq
    injection heq with hc _
    exact absurd hc h2
  · rfl

/-- Every token produced by `numBody?` converts under `pyFloatMag?`,
and never begins with a sign character. -/
theorem numBody_token {body t r : List Char} (h : numBody? body = some (t, r)) :
    (pyFloatMag? t).isSome = true ∧ ∀ c t', t = c :: t' → c ≠ '-' ∧ c ≠ '+' := by
  unfold numBody? at h
  simp only [] at h
  have hd1 := mem_takeWhile_digit (l := body) rfl
  split at h
  case h_1 r2 heq =>
    split at h
    · split at h
      · exact absurd h (by simp)
      · rename_i hd2e hd1e
        simp only [Option.some.injEq, Prod.mk.injEq] at h
        obtain ⟨h1, h2⟩ := h
        subst h1
        refine ⟨pyFloatMag_digits hd1 (by simpa [List.isEmpty_iff] using hd1e), ?_⟩
        intro c t' hct
        have hc : c.isDigit = true := hd1 c (by rw [hct]; exact List.mem_cons_self c t')
        constructor <;> (intro hcontra; subst hcontra; simp [Char.isDigit] at hc)
    · rename_i hd2e
      simp only [Option.some.injEq, Prod.mk.injEq] at h
      obtain ⟨h1, h2⟩ := h
      subst h1
      have hd2 := mem_takeWhile_digit (l := r2) rfl
      refine ⟨pyFloatMag_digits_dot hd1 hd2 (by simpa [List.isEmpty_iff] using hd2e), ?_⟩
      intro c t' hct
      cases hdt : body.takeWhile Char.isDigit with
      | nil =>
        rw [hdt] at hct
        simp only [List.nil_append, List.cons.injEq] at hct
        obtain ⟨hc, -⟩ := hct
        subst hc
        exact ⟨by decide, by decide⟩
      | cons c0 t0 =>
        rw [hdt] at hct
        simp only [List.cons_append, List.cons.injEq] at hct
        obtain ⟨hc, -⟩ := hct
        subst hc
        have hcd : c0.isDigit = true := hd1 c0 (by rw [hdt]; exact List.mem_cons_self c0 t0)
        constructor <;> (intro hcontra; subst hcontra; exact absurd hcd (by decide))
  case h_2 =>
    split at h
    · exact absurd h (by simp)
    · rename_i hd1e
      simp only [Option.some.injEq, Prod.mk.injEq] at h
      obtain ⟨h1, h2⟩ := h
      subst h1
      refine ⟨pyFloatMag_digits hd1 (by simpa [List.isEmpty_iff] using hd1e), ?_⟩
      intro c t' hct
      have hc : c.isDigit = true := hd1 c (by rw [hct]; exact List.mem_cons_self c t')
      constructor <;> (intro hcontra; subst hcontra; simp [Char.isDigit] at hc)

/-- Every token produced by `matchNum?` converts under `pyFloat?`: the
`float()` call of the source can never raise on a regex group. -/
theorem pyFloat_matchNum_isSome {l t r : List Char}
    (h : matchNum? l = some (t, r)) : (pyFloat? t).isSome = true := by
  rw [matchNum?.eq_def] at h
  split at h
  · rw [Option.map_eq_some'] at h
    obtain ⟨p, hp, hpt⟩ := h
    obtain ⟨hsome, _⟩ := numBody_token (r := p.2) (by rw [hp])
    injection hpt with h1 _
    rw [← h1]
    simp [pyFloat?, hsome]
  · rw [Option.map_eq_some'] at h
    obtain ⟨p, hp, hpt⟩ := h
    obtain ⟨hsome, _⟩ := numBody_token (r := p.2) (by rw [hp])
    injection hpt with h1 _
    rw [← h1]
    simp [pyFloat?, hsome]
  · obtain ⟨hsome, hhead⟩ := numBody_token h
    cases t with
    | nil => simp [pyFloatMag?] at hsome
    | cons c t' =>
      obtain ⟨hc1, hc2⟩ := hhead c t' rfl
      rw [pyFloat_not_sign hc1 hc2]
      exact hsome

/-- A successful `re.search` comes from a successful anchored match at
some start position. -/
theorem searchWith_inv (m : List Char → Option (List Char × List Char)) :
    ∀ {l : List Char} {g : List Char × List Char},
      searchWith m l = some g → ∃ l', m l' = some g := by
  intro l
  induction l with
  | nil => intro g h; exact ⟨[], h⟩
  | cons a t ih =>
    intro g h
    unfold searchWith at h
    cases hm : m (a :: t) with
    | some g' =>
      rw [hm] at h
      exact ⟨a :: t, by rw [hm]; exact h⟩
    | none =>
      rw [hm] at h
      exact ih h

/-- The two groups of a successful `POINT` pattern match are `matchNum?`
tokens. -/
theorem matchPointAt_tokens {l t1 t2 : List Char}
    (h : matchPointAt? l = some (t1, t2)) :
    (∃ l' r', matchNum? l' = some (t1, r')) ∧
    (∃ l' r', matchNum? l' = some (t2, r')) := by
  unfold matchPointAt? at h
  split at h
  case h_1 => exact absurd h (by simp)
  case h_2 r0 hsp =>
    split at h
    case h_2 => exact absurd h (by simp)
    case h_1 r1 hdp =>
      split at h
      case h_1 => exact absurd h (by simp)
      case h_2 t1' r2 hnum1 =>
        split at h
        case isTrue => exact absurd h (by simp)
        case isFalse =>
          split at h
          case h_1 => exact absurd h (by simp)
          case h_2 t2' r3 hnum2 =>
            split at h
            case h_2 => exact absurd h (by simp)
            case h_1 rest hdp2 =>
              simp only [Option.some.injEq, Prod.mk.injEq] at h
              obtain ⟨h1, h2⟩ := h
              subst h1; subst h2
              exact ⟨⟨_, _, hnum1⟩, ⟨_, _, hnum2⟩⟩

/-- The two groups of a successful loose-pair match are `matchNum?`
tokens. -/
theorem matchPairAt_tokens {l t1 t2 : List Char}
    (h : matchPairAt? l = some (t1, t2)) :
    (∃ l' r', matchNum? l' = some (t1, r')) ∧
    (∃ l' r', matchNum? l' = some (t2, r')) := by
  unfold matchPairAt? at h
  split at h
  case h_1 => exact absurd h (by simp)
  case h_2 t1' r1 hnum1 =>
    split at h
    case isTrue => exact absurd h (by simp)
    case isFalse =>
      split at h
      case h_1 => exact absurd h (by simp)
      case h_2 t2' r2 hnum2 =>
        simp only [Option.some.injEq, Prod.mk.injEq] at h
        obtain ⟨h1, h2⟩ := h
        subst h1; subst h2
        exact ⟨⟨_, _, hnum1⟩, ⟨_, _, hnum2⟩⟩

/-- Both groups of a successful `pointSearch` convert under `pyFloat?`. -/
theorem pointSearch_tokens_float {l t1 t2 : List Char}
    (h : pointSearch l = some (t1, t2)) :
    (pyFloat? t1).isSome = true ∧ (pyFloat? t2).isSome = true := by
  obtain ⟨l', hm⟩ := searchWith_inv matchPointAt? h
  obtain ⟨⟨l1, r1, h1⟩, ⟨l2, r2, h2⟩⟩ := matchPointAt_tokens hm
  exact ⟨pyFloat_matchNum_isSome h1, pyFloat_matchNum_isSome h2⟩

/-- Both groups of a successful `pairSearch` convert under `pyFloat?`. -/
theorem pairSearch_tokens_float {l t1 t2 : List Char}
    (h : pairSearch l = some (t1, t2)) :
    (pyFloat? t1).isSome = true ∧ (pyFloat? t2).isSome = true := by
  obtain ⟨l', hm⟩ := searchWith_inv matchPairAt? h
  obtain ⟨⟨l1, r1, h1⟩, ⟨l2, r2, h2⟩⟩ := matchPairAt_tokens hm
  exact ⟨pyFloat_matchNum_isSome h1, pyFloat_matchNum_isSome h2⟩

/-! ## Claim theorems about the parser -/

/-- C1: whenever the input matches the `POINT` pattern, `_extract_lat_lon`
returns the pair with latitude taken from the second matched number and
longitude from the first (swapped relative to input order); the result
is produced entirely inside the `POINT` branch, so the loose-pair
fallback is not consulted.  The float conversions of the two groups
always succeed, so the conversion-failure clause of the claim is
vacuously satisfied. -/
theorem point_match_swaps_lon_lat (s : String) (t1 t2 : List Char)
    (h : pointSearch s.data = some (t1, t2)) :
    ∃ lon lat, pyFloat? t1 = some lon ∧ pyFloat? t2 = some lat ∧
      _extract_lat_lon (some s) = (some lat, some lon) := by
  obtain ⟨h1, h2⟩ := pointSearch_tokens_float h
  obtain ⟨lon, hlon⟩ := Option.isSome_iff_exists.mp h1
  obtain ⟨lat, hlat⟩ := Option.isSome_iff_exists.mp h2
  refine ⟨lon, lat, hlon, hlat, ?_⟩
  simp only [_extract_lat_lon, h, hlon, hlat]

/-- Witness for C1 at the example string given in the spec. -/
theorem point_match_swaps_lon_lat_witness :
    _extract_lat_lon (some "POINT(2.287962 48.73947)") =
      (some (48.73947 : Rat), some (2.287962 : Rat)) := by
  obtain ⟨lon, lat, hlon, hlat, hres⟩ :=
    point_match_swaps_lon_lat "POINT(2.287962 48.73947)"
      "2.287962".data "48.73947".data (by decide)
  rw [show pyFloat? "2.287962".data = some (mkRat 2287962 1000000) by decide] at hlon
  rw [show pyFloat? "48.73947".data = some (mkRat 4873947 100000) by decide] at hlat
  injection hlon with hlon
  injection hlat with hlat
  rw [hres, ← hlon, ← hlat]
  simp only [Prod.mk.injEq, Option.some.injEq, Rat.mkRat_eq_div]
  norm_num

/-- C2: when the `POINT` pattern does not match but the loose-pair
pattern finds numbers `a` (first) and `b` (second), the result is
`(a, b)` if `a` lies in the inclusive band `[40, 60]`, otherwise
`(b, a)` if `b` lies in the band, otherwise `(a, b)`; when both are in
band the first branch wins, so `a` is taken as latitude. -/
theorem loose_pair_band_heuristic (s : String) (t1 t2 : List Char) (a b : Rat)
    (hp : pointSearch s.data = none) (h : pairSearch s.data = some (t1, t2))
    (ha : pyFloat? t1 = some a) (hb : pyFloat? t2 = some b) :
    _extract_lat_lon (some s) =
      if 40 ≤ a ∧ a ≤ 60 then (some a, some b)
      else if 40 ≤ b ∧ b ≤ 60 then (some b, some a)
      else (some a, some b) := by
  simp only [_extract_lat_lon, hp, h, ha, hb, Option.getD_some]

/-- Witness for C2 at the boundary value 60: the band is inclusive, so
the first number is kept as latitude. -/
theorem loose_pair_band_heuristic_witness :
    _extract_lat_lon (some "60 10") = (some (60 : Rat), some (10 : Rat)) := by
  have h := loose_pair_band_heuristic "60 10" "60".data "10".data 60 10
    (by decide) (by decide) (by decide) (by decide)
  rw [h]
  norm_num

/-- C7: a null input, the empty string, and any string in which neither
pattern finds a pair of numbers all yield `(None, None)`; and the parser
never drops a row — per-source normalization keeps exactly the rows of
the raw table, with the coordinate fields merely left null. -/
theorem no_numeric_content_returns_none :
    _extract_lat_lon none = (none, none) ∧
    _extract_lat_lon (some "") = (none, none) ∧
    (∀ s : String, pointSearch s.data = none → pairSearch s.data = none →
      _extract_lat_lon (some s) = (none, none)) ∧
    (∀ scenario t, (normSource scenario t).length = t.rows.length) := by
  refine ⟨rfl, rfl, ?_, ?_⟩
  · intro s hp h2
    simp only [_extract_lat_lon, hp, h2]
  · intro scenario t
    unfold normSource
    exact List.length_map _ _

/-- Witness for C7 at the example `"unknown"` given in the spec. -/
theorem no_numeric_content_returns_none_witness :
    _extract_lat_lon (some "unknown") = (none, none) :=
  no_numeric_content_returns_none.2.2.1 "unknown" (by decide) (by decide)

/-! ## Helper lemmas about the builder -/

/-- The parser returns both coordinates or neither, on every input. -/
theorem extract_both_or_neither (v : Option String) :
    ((_extract_lat_lon v).1 = none ↔ (_extract_lat_lon v).2 = none) := by
  cases v with
  | none => simp [_extract_lat_lon]
  | some s =>
    simp only [_extract_lat_lon]
    cases hp : pointSearch s.data with
    | some g =>
      obtain ⟨g1, g2⟩ := g
      cases h1 : pyFloat? g1 <;> cases h2 : pyFloat? g2 <;> simp [h1, h2]
    | none =>
      cases hq : pairSearch s.data with
      | some g =>
        obtain ⟨g1, g2⟩ := g
        dsimp only
        repeat' split
        all_goals simp
      | none => simp

/-- Rows of a normalized source have both coordinates or neither. -/
theorem normSource_latlon {scn : String} {t : RawTable} {q : Row}
    (h : q ∈ normSource scn t) :
    (q.latitude = none ↔ q.longitude = none) := by
  unfold normSource at h
  obtain ⟨r, hr, rfl⟩ := List.mem_map.mp h
  dsimp only
  by_cases hl : t.hasLocation
  · simp only [hl, if_true]
    exact extract_both_or_neither r.location
  · simp [hl]

/-- Membership in the final filtered dataset. -/
theorem mem_finishDataset {villes : List String} {dfs : List (List Row)} {r : FinalRow}
    (h : r ∈ finishDataset villes dfs) :
    ∃ q : Row, q ∈ dfs.flatten ∧ villes.contains q.City = true ∧ r = addGravite q := by
  unfold finishDataset at h
  obtain ⟨q, hq, rfl⟩ := List.mem_map.mp h
  obtain ⟨hq1, hq2⟩ := List.mem_filter.mp hq
  exact ⟨q, hq1, hq2, rfl⟩

/-- Every successful run of the builder produces `finishDataset` of a
list of normalized sources. -/
theorem build_dataset_ok_sources {files : List (String × String)} {villes : List String}
    {fs : String → Option RawTable} {uploaded : List (String × RawTable)}
    {m : List String} {rows : List FinalRow}
    (h : build_dataset files villes fs uploaded = .ok (m, rows)) :
    ∃ dfs : List (List Row), rows = finishDataset villes dfs ∧
      ∀ d ∈ dfs, ∃ scn t, d = normSource scn t := by
  unfold build_dataset at h
  simp only [] at h
  split at h
  · split at h
    · exact absurd h (by simp)
    · split at h
      · exact absurd h (by simp)
      · simp only [Except.ok.injEq, Prod.mk.injEq] at h
        refine ⟨_, h.2.symm, ?_⟩
        intro d hd
        obtain ⟨u, hu, rfl⟩ := List.mem_map.mp hd
        exact ⟨_, _, rfl⟩
  · simp only [Except.ok.injEq, Prod.mk.injEq] at h
    refine ⟨_, h.2.symm, ?_⟩
    intro d hd
    obtain ⟨p, hp, hpd⟩ := List.mem_filterMap.mp hd
    obtain ⟨t, ht, rfl⟩ := Option.map_eq_some'.mp hpd
    exact ⟨_, _, rfl⟩

/-- Every value of the severity table is at least 1. -/
theorem gravite_lookup_pos {k : String} {v : Nat} (h : GRAVITE.lookup k = some v) :
    1 ≤ v := by
  simp only [GRAVITE, List.lookup] at h
  repeat' split at h
  all_goals simp_all
  all_goals omega

/-- The severity attached to any row is at least 1. -/
theorem addGravite_pos (q : Row) : 1 ≤ (addGravite q).gravite := by
  unfold addGravite
  cases hg : GRAVITE.lookup q.scenario with
  | none => simp
  | some v => simpa using gravite_lookup_pos hg

/-! ## Claim theorems about the builder -/

/-- C3: every record of a successfully built dataset has its city in
the fixed allow-list; rows with other cities are dropped by the filter
and never cause an error. -/
theorem dataset_cities_allowlisted (fs : String → Option RawTable)
    (uploaded : List (String × RawTable)) (m : List String) (rows : List FinalRow)
    (h : load_data fs uploaded = .ok (m, rows)) :
    ∀ r ∈ rows, r.City ∈ VILLES_SERVICE_COMMUN := by
  intro r hr
  obtain ⟨dfs, rfl, -⟩ := build_dataset_ok_sources h
  obtain ⟨q, -, hq2, rfl⟩ := mem_finishDataset hr
  have : q.City ∈ VILLES_SERVICE_COMMUN := List.elem_iff.mp hq2
  simpa [addGravite] using this

/-- C4: every record of a successfully built dataset carries a severity
that is at least 1, equal to the severity-table entry for its scenario
when the scenario is a key of the table, and equal to the default 1
otherwise. -/
theorem dataset_severity_normalized (fs : String → Option RawTable)
    (uploaded : List (String × RawTable)) (m : List String) (rows : List FinalRow)
    (h : load_data fs uploaded = .ok (m, rows)) :
    ∀ r ∈ rows, 1 ≤ r.gravite ∧ r.gravite = (GRAVITE.lookup r.scenario).getD 1 := by
  intro r hr
  obtain ⟨dfs, rfl, -⟩ := build_dataset_ok_sources h
  obtain ⟨q, -, -, rfl⟩ := mem_finishDataset hr
  exact ⟨addGravite_pos q, by simp [addGravite]⟩

/-- C5: in every record of a successfully built dataset the latitude is
null exactly when the longitude is null — the two coordinate fields are
always set or cleared together. -/
theorem dataset_latlon_paired (fs : String → Option RawTable)
    (uploaded : List (String × RawTable)) (m : List String) (rows : List FinalRow)
    (h : load_data fs uploaded = .ok (m, rows)) :
    ∀ r ∈ rows, (r.latitude = none ↔ r.longitude = none) := by
  intro r hr
  obtain ⟨dfs, rfl, hsrc⟩ := build_dataset_ok_sources h
  obtain ⟨q, hq1, -, rfl⟩ := mem_finishDataset hr
  obtain ⟨d, hd, hqd⟩ := List.mem_flatten.mp hq1
  obtain ⟨scn, t, rfl⟩ := hsrc d hd
  have := normSource_latlon hqd
  simpa [addGravite] using this

/-- Witness for C3: a concrete successful run in which the city of the
single record is allow-listed. -/
theorem dataset_cities_allowlisted_witness :
    witnessRow.City ∈ VILLES_SERVICE_COMMUN :=
  dataset_cities_allowlisted witnessFS [] witnessMissing [witnessRow] (by rfl)
    witnessRow (by simp)

/-- Witness for C4 at the same concrete run. -/
theorem dataset_severity_normalized_witness :
    1 ≤ witnessRow.gravite ∧
      witnessRow.gravite = (GRAVITE.lookup witnessRow.scenario).getD 1 :=
  dataset_severity_normalized witnessFS [] witnessMissing [witnessRow] (by rfl)
    witnessRow (by simp)

/-- Witness for C5 at the same concrete run. -/
theorem dataset_latlon_paired_witness :
    (witnessRow.latitude = none ↔ witnessRow.longitude = none) :=
  dataset_latlon_paired witnessFS [] witnessMissing [witnessRow] (by rfl)
    witnessRow (by simp)

/-- C6: the end-to-end two-source scenario of the spec: the Palaiseau
row survives with scenario "Accident grave", severity 5 and coordinates
swapped out of the `POINT` string; the Paris row is dropped by the
allow-list filter; nothing is reported missing. -/
theorem end_to_end_two_sources :
    build_dataset [("fileA.csv", "Accident grave"), ("fileB.csv", "Nid-de-poule")]
      ["Palaiseau"] twoSourceFS [] =
      .ok ([], [{ City := "Palaiseau", Street := some "",
                  latitude := some (48.7 : Rat), longitude := some (2.2 : Rat),
                  scenario := "Accident grave", gravite := 5 }]) := by
  have h : build_dataset [("fileA.csv", "Accident grave"), ("fileB.csv", "Nid-de-poule")]
      ["Palaiseau"] twoSourceFS [] =
      .ok ([], [{ City := "Palaiseau", Street := some "",
                  latitude := some (mkRat 487 10), longitude := some (mkRat 22 10),
                  scenario := "Accident grave", gravite := 5 }]) := by rfl
  rw [h]
  simp only [Except.ok.injEq, Prod.mk.injEq, List.cons.injEq, FinalRow.mk.injEq,
    Row.mk.injEq, Option.some.injEq, Rat.mkRat_eq_div]
  norm_num

/-- The normalized-source list of a directory is empty exactly when
every configured source is absent. -/
theorem dfs_empty_iff (files : List (String × String)) (fs : String → Option RawTable) :
    ((files.filterMap (fun p => (fs p.1).map (fun t => normSource p.2 t))).isEmpty = true)
      ↔ ∀ p ∈ files, fs p.1 = none := by
  rw [List.isEmpty_iff, List.filterMap_eq_nil_iff]
  constructor
  · intro h p hp
    exact Option.map_eq_none'.mp (h p hp)
  · intro h p hp
    rw [h p hp]
    rfl

/-- C8: the builder fails, and fails with `DataUnavailable`, exactly
when no configured source can be read and the upload fallback supplies
nothing; every other configuration succeeds. -/
theorem total_failure_is_DataUnavailable (files : List (String × String))
    (villes : List String) (fs : String → Option RawTable)
    (uploaded : List (String × RawTable)) :
    build_dataset files villes fs uploaded = .error .DataUnavailable ↔
      ((∀ p ∈ files, fs p.1 = none) ∧ uploaded = []) := by
  unfold build_dataset
  simp only []
  split
  case isTrue hE =>
    split
    case isTrue hU =>
      exact iff_of_true rfl ⟨(dfs_empty_iff files fs).mp hE, List.isEmpty_iff.mp hU⟩
    case isFalse hU =>
      split
      case isTrue hU2 =>
        rw [List.isEmpty_iff, List.map_eq_nil_iff] at hU2
        exact absurd (by simp [hU2] : uploaded.isEmpty = true) hU
      case isFalse hU2 =>
        refine iff_of_false (by simp) ?_
        rintro ⟨-, h2⟩
        exact hU (by simp [h2])
  case isFalse hE =>
    refine iff_of_false (by simp) ?_
    rintro ⟨h1, -⟩
    exact hE ((dfs_empty_iff files fs).mpr h1)

/-- Witness for C8: one configured source, absent, no upload. -/
theorem total_failure_is_DataUnavailable_witness :
    build_dataset [("fileA.csv", "Accident grave")] ["Palaiseau"] (fun _ => none) []
      = .error .DataUnavailable :=
  (total_failure_is_DataUnavailable [("fileA.csv", "Accident grave")] ["Palaiseau"]
    (fun _ => none) []).mpr ⟨by simp, rfl⟩

/-- C9: with at least two configured sources, at least one readable and
at least one absent, the builder succeeds, its dataset is exactly the
normalized rows of the readable sources, and every absent source name
is recorded in the missing list. -/
theorem missing_source_nonfatal (files : List (String × String)) (villes : List String)
    (fs : String → Option RawTable) (uploaded : List (String × RawTable))
    (_hlen : 2 ≤ files.length)
    (hreadable : ∃ p ∈ files, (fs p.1).isSome = true)
    (_hmissing : ∃ p ∈ files, fs p.1 = none) :
    build_dataset files villes fs uploaded =
      .ok ((files.filter (fun p => (fs p.1).isNone)).map Prod.fst,
        finishDataset villes
          (files.filterMap (fun p => (fs p.1).map (fun t => normSource p.2 t)))) ∧
    ∀ p ∈ files, fs p.1 = none →
      p.1 ∈ (files.filter (fun p => (fs p.1).isNone)).map Prod.fst := by
  have hne : ¬ ((files.filterMap
      (fun p => (fs p.1).map (fun t => normSource p.2 t))).isEmpty = true) := by
    rw [dfs_empty_iff]
    intro hall
    obtain ⟨p, hp, hps⟩ := hreadable
    rw [hall p hp] at hps
    simp at hps
  constructor
  · unfold build_dataset
    simp only []
    rw [if_neg hne]
  · intro p hp hnone
    exact List.mem_map.mpr ⟨p, List.mem_filter.mpr ⟨hp, by simp [hnone]⟩, rfl⟩

/-- Witness for C9: two configured sources, one readable, one absent;
the run succeeds with the record of the readable source and reports the
other as missing. -/
theorem missing_source_nonfatal_witness :
    build_dataset [("fileA.csv", "Nid-de-poule"), ("fileB.csv", "Accident grave")]
      ["Palaiseau"] oneMissingFS [] = .ok (["fileB.csv"], [witnessRow]) := by
  have h := missing_source_nonfatal
    [("fileA.csv", "Nid-de-poule"), ("fileB.csv", "Accident grave")]
    ["Palaiseau"] oneMissingFS [] (by decide) (by decide) (by decide)
  rw [h.1]
  rfl

/-- C10: the scenario label stamped on the stand-still-traffic source
spells its apostrophe as U+2019 while the severity-table key uses the
ASCII apostrophe U+0027; the two strings therefore differ, the lookup
misses, and every record of that source gets the default severity 1
rather than the table value 3. -/
theorem standstill_scenario_severity_mismatch :
    FILES.lookup "Waze stand still traffic.csv" = some bouchonArretScenario ∧
    GRAVITE.lookup bouchonArretKey = some 3 ∧
    bouchonArretScenario ≠ bouchonArretKey ∧
    rightQuote ∈ bouchonArretScenario.data ∧
    asciiApos ∈ bouchonArretKey.data ∧
    GRAVITE.lookup bouchonArretScenario = none ∧
    ∀ r : Row, r.scenario = bouchonArretScenario → (addGravite r).gravite = 1 := by
  refine ⟨by decide, by decide, by decide, by decide, by decide, by decide, ?_⟩
  intro r h
  unfold addGravite
  rw [h, show GRAVITE.lookup bouchonArretScenario = none by decide]
  rfl

/-- Witness for C10 at a concrete row of the stand-still source. -/
theorem standstill_scenario_severity_mismatch_witness :
    (addGravite { City := "Palaiseau", Street := some "", latitude := none,
                  longitude := none, scenario := bouchonArretScenario }).gravite = 1 :=
  standstill_scenario_severity_mismatch.2.2.2.2.2.2
    { City := "Palaiseau", Street := some "", latitude := none,
      longitude := none, scenario := bouchonArretScenario } rfl

end Waze
